import Mathlib

/-!
Shallow embedding of the magical_thinking_podcast transcript pipeline.

Strings are modelled as `List Char`; JavaScript string operations
(trim, split, includes, indexOf, substring, padStart, toLowerCase) are
embedded with their JS semantics.  LLM / network calls are oracles and
enter the embedded functions as explicit parameters.  All numeric scores
are modelled over `ℚ` (the source uses JS numbers; the decimal literals
involved are exact in `ℚ`).
-/

set_option maxRecDepth 40000

namespace Podcast

/-- Convert a Lean string literal to the `List Char` representation. -/
def str (s : String) : List Char := s.data

/-- The character class of the JS `\s` regex escape (ASCII part) and of
`String.prototype.trim`. -/
def isJsWs (c : Char) : Bool :=
  c = ' ' || c = '\t' || c = '\n' || c = '\r' || c = '\x0b' || c = '\x0c'

/-- JS `String.prototype.trim`. -/
def jsTrim (xs : List Char) : List Char :=
  ((xs.dropWhile isJsWs).reverse.dropWhile isJsWs).reverse

/-- JS `String.prototype.toLowerCase` (ASCII). -/
def toLowerList (xs : List Char) : List Char := xs.map Char.toLower

/-- JS `hay.includes(needle)`. -/
def listContains (hay needle : List Char) : Bool :=
  hay.tails.any (fun t => needle.isPrefixOf t)

/-- Index of the first occurrence of `needle` in `hay`, if any. -/
def firstIndexOfSeq (needle hay : List Char) : Option Nat :=
  (List.range (hay.length + 1)).find? (fun i => needle.isPrefixOf (hay.drop i))

/-- JS `hay.indexOf(needle)` (−1 when absent). -/
def jsIndexOf (hay needle : List Char) : Int :=
  match firstIndexOfSeq needle hay with
  | some i => (i : Int)
  | none => -1

/-- JS `s.split(sep)` for a single-character separator (keeps empty pieces). -/
def splitOnChar (sep : Char) : List Char → List (List Char)
  | [] => [[]]
  | c :: rest =>
    if c = sep then [] :: splitOnChar sep rest
    else
      match splitOnChar sep rest with
      | [] => [[c]]
      | p :: ps => (c :: p) :: ps

/-- JS `s.split(regex)` where the regex is a character class with `+`
(maximal runs of delimiter characters separate the pieces; empty pieces
remain at the ends, as in JS).  The `inRun` flag records whether the
previous character was a delimiter. -/
def splitRunsAux (p : Char → Bool) : Bool → List Char → List (List Char)
  | _, [] => [[]]
  | inRun, c :: rest =>
    if p c then
      if inRun then splitRunsAux p true rest
      else [] :: splitRunsAux p true rest
    else
      match splitRunsAux p false rest with
      | [] => [[c]]
      | q :: qs => (c :: q) :: qs

/-- JS split on a maximal-run character-class regex, from the start state. -/
def splitRuns (p : Char → Bool) (xs : List Char) : List (List Char) :=
  splitRunsAux p false xs

/-- JS whitespace split `s.split(/\s+/)`. -/
def splitWsJs (xs : List Char) : List (List Char) := splitRuns isJsWs xs

/-- Everything before the first occurrence of `sep` (JS `s.split(sep)[0]`
for a multi-character separator). -/
def takeBeforeSeq (sep xs : List Char) : List Char :=
  match firstIndexOfSeq sep xs with
  | some i => xs.take i
  | none => xs

/-- JS `s.padStart(2, ZERO)`. -/
def padStart2 (xs : List Char) : List Char :=
  if xs.length ≥ 2 then xs else List.replicate (2 - xs.length) '0' ++ xs

/-- JS `a.substring(start, end)` (clamps both arguments, swaps if needed). -/
def jsSubstring (xs : List Char) (a b : Nat) : List Char :=
  let s := min a xs.length
  let e := min b xs.length
  if s ≤ e then (xs.drop s).take (e - s) else (xs.drop e).take (s - e)

/-- JS `x || d` for an optional number (0 and `undefined` are falsy). -/
def jsOrNat (o : Option Nat) (d : Nat) : Nat :=
  match o with
  | some n => if n = 0 then d else n
  | none => d

/-- JS `x || d` for an optional string (the empty string is falsy). -/
def jsOrStr (o : Option (List Char)) (d : List Char) : List Char :=
  match o with
  | some s => if s = [] then d else s
  | none => d

/-- JS `x || undefined` for an optional number (0 becomes `undefined`). -/
def jsOrUndef (o : Option Nat) : Option Nat :=
  match o with
  | some 0 => none
  | x => x

/-- List map with the element index, as JS `Array.prototype.map((x, i) => ...)`. -/
def mapWithIndex (f : Nat → α → β) : Nat → List α → List β
  | _, [] => []
  | i, a :: as => f i a :: mapWithIndex f (i + 1) as

/-! ### The timestamp regex of `extractTimestampsAndCleanText`

The source matches each trimmed line against

  `^(?:\d+\s*)?(\d{1,2}:\d{2}:\d{2}(?:,\d{3})?(?:\s*-->\s*\d{1,2}:\d{2}:\d{2}(?:,\d{3})?)?|\[\d{1,2}:\d{2}:\d{2}\]|\(\d{1,2}:\d{2}:\d{2}\))`

Each regex piece is embedded as a function returning the list of lengths it
can consume, in the backtracking engine's preference order (greedy
quantifiers first); the first overall success is the JS match.  Nothing
follows the capture group in the regex, so a success of the group is a
success of the whole match. -/

/-- Consume exactly `n` digit characters. -/
def takeDigits : Nat → List Char → Option (List Char)
  | 0, xs => some xs
  | _ + 1, [] => none
  | n + 1, c :: xs => if c.isDigit then takeDigits n xs else none

/-- Consume exactly the character `ch`. -/
def takeChar (ch : Char) (xs : List Char) : Option (List Char) :=
  match xs with
  | [] => none
  | c :: r => if c = ch then some r else none

/-- Lengths consumable by `\d{1,2}:\d{2}:\d{2}` (greedy: two-digit hour first). -/
def tsCore (xs : List Char) : List Nat :=
  let attempt : Nat → Option Nat := fun h =>
    match takeDigits h xs with
    | none => none
    | some r1 =>
      match takeChar ':' r1 with
      | none => none
      | some r2 =>
        match takeDigits 2 r2 with
        | none => none
        | some r3 =>
          match takeChar ':' r3 with
          | none => none
          | some r4 =>
            match takeDigits 2 r4 with
            | none => none
            | some _ => some (h + 6)
  (attempt 2).toList ++ (attempt 1).toList

/-- Lengths consumable by `(?:,\d{3})?` (greedy: present first). -/
def optMs (xs : List Char) : List Nat :=
  match takeChar ',' xs with
  | some r =>
    match takeDigits 3 r with
    | some _ => [4, 0]
    | none => [0]
  | none => [0]

/-- Sequential composition of length-enumerating matchers. -/
def seqOpts (f g : List Char → List Nat) (xs : List Char) : List Nat :=
  (f xs).flatMap (fun n => (g (xs.drop n)).map (fun m => n + m))

/-- Lengths consumable by `\s*` (greedy: longest first). -/
def wsOpts (xs : List Char) : List Nat :=
  let k := (xs.takeWhile isJsWs).length
  (List.range (k + 1)).reverse

/-- A literal character sequence. -/
def litOpts (lit : List Char) (xs : List Char) : List Nat :=
  if lit.isPrefixOf xs then [lit.length] else []

/-- Lengths consumable by `(?:\s*-->\s*\d{1,2}:\d{2}:\d{2}(?:,\d{3})?)?`
(greedy: arrow clause present first, absent last). -/
def optArrow (xs : List Char) : List Nat :=
  seqOpts wsOpts (seqOpts (litOpts (str "-->"))
    (seqOpts wsOpts (seqOpts tsCore optMs))) xs ++ [0]

/-- Lengths consumable by the first regex alternative
`\d{1,2}:\d{2}:\d{2}(?:,\d{3})?(?:\s*-->\s*...)?`. -/
def alt1 (xs : List Char) : List Nat :=
  seqOpts tsCore (seqOpts optMs optArrow) xs

/-- Lengths consumable by a bracketed alternative `\[\d{1,2}:\d{2}:\d{2}\]`
(or the parenthesised one). -/
def bracketAlt (op cl : Char) (xs : List Char) : List Nat :=
  match takeChar op xs with
  | none => []
  | some r =>
    (tsCore r).flatMap (fun n =>
      match takeChar cl (r.drop n) with
      | some _ => [n + 2]
      | none => [])

/-- Lengths consumable by the capture group (the three alternatives in order). -/
def altChoices (xs : List Char) : List Nat :=
  alt1 xs ++ bracketAlt '[' ']' xs ++ bracketAlt '(' ')' xs

/-- Lengths consumable by the optional numeric prefix `(?:\d+\s*)?`
(greedy: most digits first, then most whitespace; absent last). -/
def prefixOpts (xs : List Char) : List Nat :=
  let d := (xs.takeWhile Char.isDigit).length
  ((List.range d).map (fun j => d - j)).flatMap
    (fun k => (wsOpts (xs.drop k)).map (fun w => k + w)) ++ [0]

/-- The JS `trimmedLine.match(timestampRegex)`: on success, the length of
`match[0]` and the characters of the capture `match[1]`. -/
def matchTimestamp (xs : List Char) : Option (Nat × List Char) :=
  ((prefixOpts xs).flatMap (fun p =>
    (altChoices (xs.drop p)).map
      (fun c => (p + c, (xs.drop p).take c)))).head?

/-- The source's `normalizeTimestamp`: remove brackets/parentheses, keep the
part before `-->`, drop `,mmm` milliseconds, and zero-pad a 3-component
time. -/
def normalizeTimestamp (ts : List Char) : List Char :=
  let clean := jsTrim (takeBeforeSeq (str "-->")
    (ts.filter (fun c => ¬(c = '[' ∨ c = ']' ∨ c = '(' ∨ c = ')'))))
  let timeOnly := clean.takeWhile (fun c => c ≠ ',')
  match splitOnChar ':' timeOnly with
  | [h, m, s] => padStart2 h ++ [':'] ++ padStart2 m ++ [':'] ++ padStart2 s
  | _ => timeOnly

/-- A transcript line whose timestamp was recognised. -/
structure TimestampedLine where
  timestamp : List Char
  text : List Char
  charIndex : Nat
deriving DecidableEq

/-- Accumulated output of `extractTimestampsAndCleanText`. -/
structure ExtractAcc where
  timestampedLines : List TimestampedLine
  cleanLines : List (List Char)
deriving DecidableEq

/-- The per-line loop of `extractTimestampsAndCleanText`.  A matched line
contributes an anchor and a clean line only when text remains after the
timestamp; an unmatched line is kept only when longer than 10 characters. -/
def processLines : List (List Char) → Nat → ExtractAcc
  | [], _ => ⟨[], []⟩
  | line :: rest, charIndex =>
    let t := jsTrim line
    if t = [] then processLines rest charIndex
    else
      match matchTimestamp t with
      | some (mlen, cap) =>
        let textAfter := jsTrim (t.drop mlen)
        if textAfter = [] then processLines rest charIndex
        else
          let r := processLines rest (charIndex + textAfter.length + 1)
          ⟨⟨normalizeTimestamp cap, textAfter, charIndex⟩ :: r.timestampedLines,
            textAfter :: r.cleanLines⟩
      | none =>
        if t.length > 10 then
          let r := processLines rest (charIndex + t.length + 1)
          ⟨r.timestampedLines, t :: r.cleanLines⟩
        else processLines rest charIndex

/-- Result record of `extractTimestampsAndCleanText`. -/
structure ExtractResult where
  cleanText : List Char
  timestampedLines : List TimestampedLine
  originalWithTimestamps : List Char
deriving DecidableEq

/-- The source's `extractTimestampsAndCleanText` (`cleanLines.join(NEWLINE)`). -/
def extractTimestampsAndCleanText (transcript : List Char) : ExtractResult :=
  let acc := processLines (splitOnChar '\n' transcript) 0
  ⟨List.intercalate ['\n'] acc.cleanLines, acc.timestampedLines, transcript⟩

/-! ### Chapter matching (`chapterSegmentation.ts`) -/

/-- A chapter as produced by the LLM and refined by
`matchChaptersToTimestamps`. -/
structure Chapter where
  title : List Char
  theme : List Char
  firstSentence : List Char
  startTimestamp : Option (List Char) := none
  endTimestamp : Option (List Char) := none
  startCharIndex : Option Nat := none
  endCharIndex : Option Nat := none
deriving DecidableEq

/-- The source's `calculateMatchScore`: 1 on equality, 0.9 on containment,
otherwise twice the shared-word count over the total word count. -/
def calculateMatchScore (sentence1 sentence2 : List Char) : ℚ :=
  let s1 := jsTrim (toLowerList sentence1)
  let s2 := jsTrim (toLowerList sentence2)
  if s1 = s2 then 1
  else if listContains s1 s2 ∨ listContains s2 s1 then 9 / 10
  else
    let words1 := splitWsJs s1
    let words2 := splitWsJs s2
    let commonWords := words1.filter (fun word =>
      word.length > 2 ∧ words2.any (fun w2 =>
        listContains w2 word ∨ listContains word w2))
    ((commonWords.length * 2 : ℕ) : ℚ) / ((words1.length + words2.length : ℕ) : ℚ)

/-- The best-match loop of `matchChaptersToTimestamps`: keeps the first line
achieving the strictly greatest score, provided it exceeds 0.7. -/
def bestMatchFold (firstSentence : List Char) :
    List TimestampedLine → ℚ → Option TimestampedLine → Option TimestampedLine
  | [], _, best => best
  | l :: rest, bestScore, best =>
    let score := calculateMatchScore firstSentence l.text
    if score > bestScore ∧ score > 7 / 10 then
      bestMatchFold firstSentence rest score (some l)
    else bestMatchFold firstSentence rest bestScore best

/-- The loop of the source's `findFuzzyMatch` (threshold 0.4). -/
def findFuzzyAux (targetWords : List (List Char)) :
    List TimestampedLine → ℚ → Option TimestampedLine → Option TimestampedLine
  | [], _, best => best
  | l :: rest, bestScore, best =>
    let lineWords := splitWsJs (toLowerList l.text)
    let matchingWords := targetWords.filter (fun word =>
      lineWords.any (fun lineWord =>
        listContains lineWord word ∨ listContains word lineWord))
    let score := ((matchingWords.length : ℕ) : ℚ) / ((targetWords.length : ℕ) : ℚ)
    if score > bestScore ∧ score > 2 / 5 then
      findFuzzyAux targetWords rest score (some l)
    else findFuzzyAux targetWords rest bestScore best

/-- The source's `findFuzzyMatch`. -/
def findFuzzyMatch (targetSentence : List Char)
    (timestampedLines : List TimestampedLine) : Option TimestampedLine :=
  findFuzzyAux
    ((splitWsJs (toLowerList targetSentence)).filter (fun w => w.length > 2))
    timestampedLines 0 none

/-- Sentinel end-of-episode timestamp. -/
def ts99 : List Char := str "99:99:99"

/-- Default zero timestamp. -/
def ts00 : List Char := str "00:00:00"

/-- The body of the `chapters.map((chapter, index) => ...)` callback in
`matchChaptersToTimestamps`. -/
def matchOneChapter (chapters : List Chapter) (timestampedLines : List TimestampedLine)
    (cleanText : List Char) (index : Nat) (chapter : Chapter) : Chapter :=
  let firstSentence := chapter.firstSentence
  let bestMatch0 := bestMatchFold firstSentence timestampedLines 0 none
  let bestMatch :=
    match bestMatch0 with
    | some b => some b
    | none =>
      if firstSentence.length > 10 then findFuzzyMatch firstSentence timestampedLines
      else none
  let cleanTextIndex := jsIndexOf cleanText firstSentence
  let startCharIndex :=
    if cleanTextIndex ≠ -1 then some cleanTextIndex.toNat
    else bestMatch.map (fun b => b.charIndex)
  let endPair :=
    match chapters.get? (index + 1) with
    | none => (ts99, cleanText.length)
    | some nextChapter =>
      match timestampedLines.find? (fun (line : TimestampedLine) =>
          decide (calculateMatchScore nextChapter.firstSentence line.text > 7 / 10)) with
      | some nextMatch => (nextMatch.timestamp, nextMatch.charIndex)
      | none => (ts99, cleanText.length)
  { chapter with
      startTimestamp := some (jsOrStr (bestMatch.map (fun b => b.timestamp)) ts00)
      endTimestamp := some endPair.1
      startCharIndex := startCharIndex
      endCharIndex := some endPair.2 }

/-- The source's `matchChaptersToTimestamps`. -/
def matchChaptersToTimestamps (chapters : List Chapter)
    (timestampedLines : List TimestampedLine) (cleanText : List Char) : List Chapter :=
  mapWithIndex (matchOneChapter chapters timestampedLines cleanText) 0 chapters

/-! ### Multi-level chunking (`multiLevelChunking.ts`)

The LLM / network oracles (`generateEpisodeSummary`'s fetch,
`extractGuestName`, `identifyChaptersWithLLM`) and the external
`RecursiveCharacterTextSplitter` enter `createMultiLevelChunks` as explicit
parameters; everything else is embedded from the source. -/

/-- The four chunk levels. -/
inductive Level
  | episode
  | topic
  | paragraph
  | sentence
deriving DecidableEq

/-- One chunk of the transcript (`ChunkData` in the source).  The
`metadata` record is modelled by the fields the pipeline itself reads back
(`segment_start`, `segment_end`, `char_start`); the purely informational
metadata entries are omitted. -/
structure ChunkData where
  text_content : List Char
  chunk_index : Nat
  chunk_level : Level
  parent_chunk_id : Option Nat := none
  summary : Option (List Char) := none
  speaker : Option (List Char) := none
  topic_boundary : Option Bool := none
  full_text : Option (List Char) := none
  timestamp_start : List Char
  timestamp_end : List Char
  chapter_title : Option (List Char) := none
  chapter_theme : Option (List Char) := none
  chapter_index : Option Nat := none
  guest_name : Option (List Char) := none
  meta_segment_start : Option Nat := none
  meta_segment_end : Option Nat := none
  meta_char_start : Option Int := none
deriving DecidableEq

/-- Outcome of the DeepInfra chat-completion fetch, as seen by the caller:
the fetch rejected, the response was not ok, or it succeeded and the
optional chain `data.choices[0]?.message?.content?.trim()` produced the
given (possibly absent) string. -/
inductive FetchOutcome
  | threw
  | notOk (statusText : List Char)
  | okResp (content : Option (List Char))
deriving DecidableEq

/-- The fallback summary `fullText.substring(0, 500) + "..."`. -/
def truncFallback (fullText : List Char) : List Char :=
  jsSubstring fullText 0 500 ++ str "..."

/-- The source's `generateEpisodeSummary`.  A missing API key throws before
the `try` block; every fetch failure inside the `try` block is caught and
degrades to the truncation fallback. -/
def generateEpisodeSummary (fullText : List Char) (apiKey : Option (List Char))
    (outcome : FetchOutcome) : Except (List Char) (List Char) :=
  match apiKey with
  | none => Except.error (str "DEEPINFRA_API_KEY environment variable is not set")
  | some _ =>
    match outcome with
    | FetchOutcome.threw => Except.ok (truncFallback fullText)
    | FetchOutcome.notOk _ => Except.ok (truncFallback fullText)
    | FetchOutcome.okResp content => Except.ok (jsOrStr content (truncFallback fullText))

/-- Test for the pattern `\d{2}:\d{2}:\d{2}` at the head of a string. -/
def timePatAt (t : List Char) : Bool :=
  match t with
  | a :: b :: c :: d :: e :: f :: g :: h :: _ =>
    a.isDigit && b.isDigit && c = ':' && d.isDigit && e.isDigit && f = ':' &&
      g.isDigit && h.isDigit
  | _ => false

/-- JS `/\d{2}:\d{2}:\d{2}/.test(line)` (unanchored search). -/
def hasTimePattern (line : List Char) : Bool :=
  line.tails.any timePatAt

/-- ASCII upper-case letter. -/
def isUpperAZ (c : Char) : Bool :=
  'A' ≤ c && c ≤ 'Z'

/-- The character class `[a-zA-Z\s]`. -/
def isSpeakerCls (c : Char) : Bool :=
  ('a' ≤ c && c ≤ 'z') || ('A' ≤ c && c ≤ 'Z') || isJsWs c

/-- JS `line.match(/^([A-Z][a-zA-Z\s]+):/)`, returning the trimmed capture.
The class excludes the colon, so the greedy run is forced maximal. -/
def speakerMatch (line : List Char) : Option (List Char) :=
  match line with
  | [] => none
  | c :: rest =>
    if isUpperAZ c then
      let run := rest.takeWhile isSpeakerCls
      if run.length ≥ 1 && (rest.drop run.length).head? = some ':' then
        some (jsTrim (c :: run))
      else none
    else none

/-- The source's `extractSpeaker` (first match among the first 3 lines). -/
def extractSpeaker (text : List Char) : Option (List Char) :=
  ((splitOnChar '\n' text).take 3).findSome? speakerMatch

/-- The loop of the source's `detectTopicBoundaries`: `currentPos` is the
running char offset, `lastB` the last recorded boundary, `prev` the
previous raw line. -/
def detectAux : Nat → Nat → List Char → List (List Char) → List Nat
  | _, _, _, [] => []
  | currentPos, lastB, prev, cur :: rest =>
    let pos := currentPos + prev.length + 1
    let line := jsTrim cur
    let nextBig : Bool :=
      match rest with
      | [] => false
      | nx :: _ => decide ((jsTrim nx).length > 50)
    let isTopicBoundary : Bool :=
      (hasTimePattern line && decide (pos - lastB > 1000)) ||
      ((speakerMatch line).isSome && decide (pos - lastB > 800)) ||
      (decide (line.length = 0) && nextBig && decide (pos - lastB > 1500))
    if isTopicBoundary then pos :: detectAux pos pos cur rest
    else detectAux pos lastB cur rest

/-- The source's `detectTopicBoundaries` (fallback topic segmentation). -/
def detectTopicBoundaries (text : List Char) : List Nat :=
  match splitOnChar '\n' text with
  | [] => [0]
  | first :: rest => 0 :: detectAux 0 0 first rest

/-- The fallback chapters built in the `catch` branch of
`createMultiLevelChunks` from `detectTopicBoundaries`. -/
def fallbackChapters (plainText : List Char) : List Chapter :=
  let topicBoundaries := detectTopicBoundaries plainText
  mapWithIndex (fun i start =>
    { title := str "Topic " ++ str (toString (i + 1))
      theme := str "Content segment"
      firstSentence := jsTrim (jsSubstring plainText start (start + 100))
      startTimestamp := some ts00
      endTimestamp := some ts00
      startCharIndex := some start
      endCharIndex := some (jsOrNat (topicBoundaries.get? (i + 1)) plainText.length) })
    0 topicBoundaries.dropLast

/-- The loop of `mapCharIndexToTimestamp` (breaks at the first line past
`charIdx`). -/
def mapCharAux (charIdx : Int) :
    List TimestampedLine → List Char × List Char → List Char × List Char
  | [], acc => acc
  | l :: rest, acc =>
    if (l.charIndex : Int) ≤ charIdx then
      mapCharAux charIdx rest
        (l.timestamp, jsOrStr ((rest.head?).map (fun n => n.timestamp)) ts99)
    else acc

/-- The source's `mapCharIndexToTimestamp` helper inside
`createMultiLevelChunks`. -/
def mapCharIndexToTimestamp (timestampedLines : List TimestampedLine)
    (charIdx : Int) : List Char × List Char :=
  match timestampedLines with
  | [] => (ts00, ts00)
  | _ => mapCharAux charIdx timestampedLines (ts00, ts99)

/-- The topic-chunk creation loop of `createMultiLevelChunks` over the
index-enumerated chapters; `counter` is the running `chunkCounter`. -/
def mkTopicChunks (plainText : List Char) :
    List (Nat × Chapter) → Nat → List ChunkData
  | [], _ => []
  | (index, chapter) :: rest, counter =>
    let startChar := jsOrNat chapter.startCharIndex 0
    let endChar := jsOrNat chapter.endCharIndex plainText.length
    let chapterText := jsTrim (jsSubstring plainText startChar endChar)
    if chapterText.length > 200 then
      { text_content := chapterText
        chunk_index := counter
        chunk_level := Level.topic
        parent_chunk_id := some 1
        speaker := extractSpeaker chapterText
        topic_boundary := some true
        timestamp_start := jsOrStr chapter.startTimestamp ts00
        timestamp_end := jsOrStr chapter.endTimestamp ts00
        chapter_title := some chapter.title
        chapter_theme := some chapter.theme
        chapter_index := some index
        meta_segment_start := some startChar
        meta_segment_end := some endChar } :: mkTopicChunks plainText rest (counter + 1)
    else mkTopicChunks plainText rest counter

/-- The paragraph-chunk callback of `createMultiLevelChunks` for one
splitter document. -/
def mkParagraphChunk (plainText : List Char) (topicChunks : List ChunkData)
    (tsLines : List TimestampedLine) (startCounter : Nat) (index : Nat)
    (doc : List Char) : ChunkData :=
  let paragraphStart := jsIndexOf plainText doc
  let parentTopic := topicChunks.find? (fun (topic : ChunkData) =>
    decide ((jsOrNat topic.meta_segment_start 0 : Int) ≤ paragraphStart) &&
    decide (paragraphStart < (jsOrNat topic.meta_segment_end plainText.length : Int)))
  let ts := mapCharIndexToTimestamp tsLines paragraphStart
  { text_content := doc
    chunk_index := startCounter + index
    chunk_level := Level.paragraph
    parent_chunk_id := jsOrUndef (parentTopic.map (fun t => t.chunk_index))
    speaker := extractSpeaker doc
    timestamp_start := ts.1
    timestamp_end := ts.2
    meta_char_start := some paragraphStart }

/-- All paragraph chunks (every splitter document yields one chunk). -/
def mkParagraphChunks (plainText : List Char) (topicChunks : List ChunkData)
    (tsLines : List TimestampedLine) (paragraphDocs : List (List Char))
    (startCounter : Nat) : List ChunkData :=
  mapWithIndex (mkParagraphChunk plainText topicChunks tsLines startCounter)
    0 paragraphDocs

/-- Sentence-terminal punctuation `[.!?]`. -/
def isSentencePunct (c : Char) : Bool :=
  c = '.' || c = '!' || c = '?'

/-- The first-stage sentence candidates:
`plainText.split(/[.!?]+/).map(trim).filter(20 < len < 500)`. -/
def sentenceStage1 (plainText : List Char) : List (List Char) :=
  ((splitRuns isSentencePunct plainText).map jsTrim).filter
    (fun s => decide (s.length > 20) && decide (s.length < 500))

/-- The sentence-chunk creation loop of `createMultiLevelChunks` over the
index-enumerated stage-1 candidates; a chunk is emitted only for candidates
longer than 30 characters. -/
def mkSentenceChunks (plainText : List Char) (allChunks : List ChunkData)
    (tsLines : List TimestampedLine) :
    List (Nat × List Char) → Nat → List ChunkData
  | [], _ => []
  | (_, sentence) :: rest, counter =>
    if sentence.length > 30 then
      let sentenceStart := jsIndexOf plainText sentence
      let parentParagraph := allChunks.find? (fun (chunk : ChunkData) =>
        decide (chunk.chunk_level = Level.paragraph) &&
        listContains chunk.text_content sentence)
      let ts := mapCharIndexToTimestamp tsLines sentenceStart
      { text_content := sentence ++ ['.']
        chunk_index := counter
        chunk_level := Level.sentence
        parent_chunk_id := jsOrUndef (parentParagraph.map (fun c => c.chunk_index))
        speaker := extractSpeaker sentence
        timestamp_start := ts.1
        timestamp_end := ts.2
        meta_char_start := some sentenceStart } ::
        mkSentenceChunks plainText allChunks tsLines rest (counter + 1)
    else mkSentenceChunks plainText allChunks tsLines rest counter

/-- The source's `createMultiLevelChunks`.  Oracle parameters: `apiKey` and
`summaryOutcome` drive `generateEpisodeSummary`; `guestName` is the
(always-resolving) `extractGuestName` result; `llmChapters` is the result
of `identifyChaptersWithLLM` (`none` models the chapter-segmentation
`catch` branch); `paragraphDocs` are the external
`RecursiveCharacterTextSplitter` documents. -/
def createMultiLevelChunks (plainText : List Char)
    (originalMarkdown : Option (List Char)) (apiKey : Option (List Char))
    (summaryOutcome : FetchOutcome) (guestName : List Char)
    (llmChapters : Option (List Chapter)) (paragraphDocs : List (List Char)) :
    Except (List Char) (List ChunkData) :=
  match generateEpisodeSummary plainText apiKey summaryOutcome with
  | Except.error e => Except.error e
  | Except.ok episodeSummary =>
    let episodeChunk : ChunkData :=
      { text_content :=
          if plainText.length > 8000 then jsSubstring plainText 0 8000 ++ str "..."
          else plainText
        chunk_index := 0
        chunk_level := Level.episode
        summary := some episodeSummary
        guest_name := some guestName
        full_text := some plainText
        timestamp_start := ts00
        timestamp_end := ts99 }
    let timestampData := extractTimestampsAndCleanText (jsOrStr originalMarkdown plainText)
    let timestampedLines := timestampData.timestampedLines
    let chapters :=
      match llmChapters with
      | some identifiedChapters =>
        matchChaptersToTimestamps identifiedChapters timestampedLines
          timestampData.cleanText
      | none => fallbackChapters plainText
    let topics := mkTopicChunks plainText chapters.enum 1
    let paragraphs :=
      mkParagraphChunks plainText topics timestampedLines paragraphDocs
        (1 + topics.length)
    let sentences :=
      mkSentenceChunks plainText (episodeChunk :: (topics ++ paragraphs))
        timestampedLines (sentenceStage1 plainText).enum
        (1 + topics.length + paragraphs.length)
    Except.ok (episodeChunk :: (topics ++ paragraphs ++ sentences))

/-- Follow one `parent_ref` edge: the `parent_chunk_id` of the chunk whose
`chunk_index` is `i` (the upload route resolves `parent_chunk_id` against
`chunk_index`). -/
def parentStep (cs : List ChunkData) (i : Nat) : Option Nat :=
  (cs.find? (fun c => c.chunk_index = i)).bind (fun c => c.parent_chunk_id)

/-- Follow `parent_ref` edges `n` times starting from `chunk_index` `i`. -/
def chainIter (cs : List ChunkData) : Nat → Nat → Option Nat
  | 0, i => some i
  | n + 1, i =>
    match parentStep cs i with
    | some p => chainIter cs n p
    | none => none

/-! ### Smart search (`smartSearch.ts` and the search route) -/

/-- The broad-discovery indicator phrases of `classifyQuery`. -/
def broadIndicators : List (List Char) :=
  [str "episodes about", str "podcasts about", str "which episode",
   str "find episodes", str "discusses", str "talks about", str "covers",
   str "mentions"]

/-- The specific-detail indicator phrases of `classifyQuery`. -/
def specificIndicators : List (List Char) :=
  [str "what does", str "how does", str "explain", str "definition",
   str "example", str "quote", str "exact", str "precisely",
   str "specifically"]

/-- The exploratory indicator phrases of `classifyQuery`. -/
def exploratoryIndicators : List (List Char) :=
  [str "tell me about", str "learn about", str "understand", str "overview"]

/-- The source's `classifyQuery`. -/
def classifyQuery (query : List Char) : List Level :=
  let lowerQuery := toLowerList query
  let isBroad := broadIndicators.any (fun indicator => listContains lowerQuery indicator)
  let isSpecific := specificIndicators.any (fun indicator => listContains lowerQuery indicator)
  let isExploratory := exploratoryIndicators.any (fun indicator => listContains lowerQuery indicator)
  if isBroad then [Level.episode, Level.topic]
  else if isSpecific then [Level.paragraph, Level.sentence]
  else if isExploratory then [Level.episode, Level.topic, Level.paragraph]
  else [Level.topic, Level.paragraph]

/-- The source's `calculateLevelWeight` (scores over `ℚ`; the decimal
literals 0.8, 0.9, 1.0 and 1.2 are exact). -/
def calculateLevelWeight (level : Level) (preferredLevels : List Level) : ℚ :=
  let baseWeight : ℚ :=
    match level with
    | Level.episode => 8 / 10
    | Level.topic => 1
    | Level.paragraph => 1
    | Level.sentence => 9 / 10
  let isPreferred := preferredLevels.contains level
  let preferenceBoost : ℚ := if isPreferred then 12 / 10 else 8 / 10
  baseWeight * preferenceBoost

/-- The adjusted score computed in the search route
(`baseScore * calculateLevelWeight(...)`); the route additionally renders
it with `toFixed(4)`, which is the identity on the spec's example values. -/
def adjustedScore (baseScore : ℚ) (level : Level) (preferredLevels : List Level) : ℚ :=
  baseScore * calculateLevelWeight level preferredLevels

/-- A search hit as consumed by `assembleContext` (`id` is the database id;
`parent_chunk_id` is the resolved database id of the parent or SQL null). -/
structure SearchResult where
  id : Nat
  parent_chunk_id : Option Nat := none
  chunk_level : Level
  similarity : ℚ
deriving DecidableEq

/-- The source's `assembleContext`: the hit's parent (when
`result.parent_chunk_id` is truthy and found in the pool), then up to 3
children, then up to 2 siblings, each in pool order. -/
def assembleContext (result : SearchResult) (allResults : List SearchResult) :
    List SearchResult :=
  let parentPart :=
    match result.parent_chunk_id with
    | some p =>
      if p = 0 then []
      else
        match allResults.find? (fun r => r.id = p) with
        | some parent => [parent]
        | none => []
    | none => []
  let childrenPart :=
    (allResults.filter (fun r => r.parent_chunk_id = some result.id)).take 3
  let siblingsPart :=
    match result.parent_chunk_id with
    | some p =>
      if p = 0 then []
      else
        (allResults.filter (fun r =>
          decide (r.parent_chunk_id = some p) && decide (r.id ≠ result.id))).take 2
    | none => []
  parentPart ++ childrenPart ++ siblingsPart

/-! ### Concrete example inputs used by the theorems below -/

/-- Is an `Except` value a success? -/
def isOkE : Except ε α → Bool
  | Except.ok _ => true
  | Except.error _ => false

/-- The chunk list of a successful pipeline run (empty on error). -/
def chunksOf (e : Except (List Char) (List ChunkData)) : List ChunkData :=
  match e with
  | Except.ok cs => cs
  | Except.error _ => []

/-- A 210-character transcript (one chapter above the 200-char threshold). -/
def exampleText210 : List Char := List.replicate 210 'a'

/-- A chapter whose first sentence is the whole 210-character transcript. -/
def exampleChapter210 : Chapter :=
  { title := str "Intro", theme := str "Opening", firstSentence := exampleText210 }

/-- Pipeline run on the 210-character transcript with all oracles succeeding. -/
def resultC1 : Except (List Char) (List ChunkData) :=
  createMultiLevelChunks exampleText210 none (some (str "key"))
    (FetchOutcome.okResp (some (str "a summary"))) (str "Guest")
    (some [exampleChapter210]) [exampleText210]

/-- The chunks of `resultC1`. -/
def chunksC1 : List ChunkData := chunksOf resultC1

/-- Clean text containing the first sentences of two chapters. -/
def cleanC2 : List Char := str "hello alpha first and then hello beta second"

/-- First chapter of the two-chapter example. -/
def chapterC2A : Chapter :=
  { title := str "A", theme := str "one", firstSentence := str "hello alpha first" }

/-- Second chapter of the two-chapter example. -/
def chapterC2B : Chapter :=
  { title := str "B", theme := str "two", firstSentence := str "hello beta second" }

/-- Chapter matching with no timestamped lines on the two-chapter example. -/
def matchedC2 : List Chapter :=
  matchChaptersToTimestamps [chapterC2A, chapterC2B] [] cleanC2

/-- A short transcript for the episode-summary failure example. -/
def textC3 : List Char := str "hello world this is a transcript"

/-- Pipeline run in which the episode-summary fetch returns a non-ok
response. -/
def resultC3 : Except (List Char) (List ChunkData) :=
  createMultiLevelChunks textC3 none (some (str "key"))
    (FetchOutcome.notOk (str "Bad Gateway")) (str "Guest") (some []) [textC3]

/-- The chunks of `resultC3`. -/
def chunksC3 : List ChunkData := chunksOf resultC3

/-- A search hit with a known parent and five known children in the pool. -/
def exampleHit : SearchResult :=
  { id := 10, parent_chunk_id := some 5, chunk_level := Level.topic, similarity := 1 / 2 }

/-- A candidate pool: the hit's parent, five children (the second one with
the highest similarity) and three siblings, in creation order. -/
def examplePool : List SearchResult :=
  [ { id := 5, parent_chunk_id := none, chunk_level := Level.episode, similarity := 1 / 3 },
    { id := 11, parent_chunk_id := some 10, chunk_level := Level.paragraph, similarity := 1 / 4 },
    { id := 12, parent_chunk_id := some 10, chunk_level := Level.paragraph, similarity := 9 / 10 },
    { id := 13, parent_chunk_id := some 10, chunk_level := Level.paragraph, similarity := 1 / 5 },
    { id := 14, parent_chunk_id := some 10, chunk_level := Level.paragraph, similarity := 1 / 6 },
    { id := 15, parent_chunk_id := some 10, chunk_level := Level.paragraph, similarity := 1 / 7 },
    { id := 20, parent_chunk_id := some 5, chunk_level := Level.topic, similarity := 1 / 8 },
    { id := 21, parent_chunk_id := some 5, chunk_level := Level.topic, similarity := 1 / 9 },
    { id := 22, parent_chunk_id := some 5, chunk_level := Level.topic, similarity := 1 / 10 } ]

/-- A transcript that is a single 30-character sentence. -/
def textC9 : List Char := List.replicate 30 'e' ++ ['.']

/-- Pipeline run on the 30-character sentence. -/
def resultC9 : Except (List Char) (List ChunkData) :=
  createMultiLevelChunks textC9 none (some (str "key"))
    (FetchOutcome.okResp (some (str "a summary"))) (str "Guest") (some []) [textC9]

/-- The chunks of `resultC9`. -/
def chunksC9 : List ChunkData := chunksOf resultC9

/-- A transcript that is a single 31-character sentence. -/
def textC9b : List Char := List.replicate 31 'e' ++ ['.']

/-- Pipeline run on the 31-character sentence. -/
def resultC9b : Except (List Char) (List ChunkData) :=
  createMultiLevelChunks textC9b none (some (str "key"))
    (FetchOutcome.okResp (some (str "a summary"))) (str "Guest") (some []) [textC9b]

/-- The chunks of `resultC9b`. -/
def chunksC9b : List ChunkData := chunksOf resultC9b

/-- A 200-character transcript (one chapter exactly at the threshold). -/
def exampleText200 : List Char := List.replicate 200 'b'

/-- A chapter whose first sentence is the whole 200-character transcript. -/
def exampleChapter200 : Chapter :=
  { title := str "Intro", theme := str "Opening", firstSentence := exampleText200 }

/-- Chapter matching for the 200-character transcript (no timestamps). -/
def matchedC10 : List Chapter :=
  matchChaptersToTimestamps [exampleChapter200] [] exampleText200

/-- Pipeline run on the 200-character transcript. -/
def resultC10 : Except (List Char) (List ChunkData) :=
  createMultiLevelChunks exampleText200 none (some (str "key"))
    (FetchOutcome.okResp (some (str "a summary"))) (str "Guest")
    (some [exampleChapter200]) [exampleText200]

/-- The chunks of `resultC10`. -/
def chunksC10 : List ChunkData := chunksOf resultC10

/-- A 201-character transcript, one character above the threshold. -/
def exampleText201 : List Char := List.replicate 201 'b'

/-- A chapter record spanning the whole 201-character transcript. -/
def exampleChapter201 : Chapter :=
  { title := str "Intro", theme := str "Opening", firstSentence := exampleText201,
    startCharIndex := some 0, endCharIndex := some 201 }

/-! ## Theorems -/

/-- Indexing through `mapWithIndex`. -/
theorem mapWithIndex_get? (f : Nat → α → β) :
    ∀ (l : List α) (k i : Nat),
      (mapWithIndex f k l).get? i = (l.get? i).map (f (k + i))
  | [], _, _ => by simp [mapWithIndex]
  | _ :: _, _, 0 => by simp [mapWithIndex]
  | _ :: as, k, i + 1 => by
    have h := mapWithIndex_get? f as (k + 1) i
    have harith : k + 1 + i = k + (i + 1) := by omega
    rw [harith] at h
    simpa [mapWithIndex] using h

/-- C6.  For every chunk level `L` and preferred-level set `P`, the adjusted
score of a candidate with raw similarity `s` is
`s * base_weight L * m` with base weights 0.8 / 1.0 / 1.0 / 0.9 for
episode / topic / paragraph / sentence and `m = 1.2` when `L ∈ P`,
else `0.8`; in particular raw similarity 0.5 on a sentence-level chunk with
preferred levels only paragraph gives 0.36, and with sentence preferred
gives 0.54. -/
theorem adjustedScore_eq_base_weight_times_preference :
    (∀ (s : ℚ) (L : Level) (P : List Level),
      adjustedScore s L P =
        s * (match L with
          | Level.episode => (8 : ℚ) / 10
          | Level.topic => 1
          | Level.paragraph => 1
          | Level.sentence => (9 : ℚ) / 10) *
        (if L ∈ P then (12 : ℚ) / 10 else (8 : ℚ) / 10)) ∧
    adjustedScore (1 / 2) Level.sentence [Level.paragraph] = 36 / 100 ∧
    adjustedScore (1 / 2) Level.sentence [Level.sentence] = 54 / 100 := by
  refine ⟨fun s L P => ?_,
    by show (1 : ℚ) / 2 * ((9 : ℚ) / 10 * ((8 : ℚ) / 10)) = 36 / 100; norm_num,
    by show (1 : ℚ) / 2 * ((9 : ℚ) / 10 * ((12 : ℚ) / 10)) = 54 / 100; norm_num⟩
  by_cases h : L ∈ P <;>
    cases L <;>
      simp [adjustedScore, calculateLevelWeight, List.contains, h] <;> ring

/-- C7.  `classifyQuery` maps a query, by case-insensitive substring
matching with broad / specific / exploratory precedence, to
episode+topic, paragraph+sentence, episode+topic+paragraph, or the default
topic+paragraph; with the four example queries mapped as the spec states. -/
theorem classifyQuery_cases :
    (∀ q : List Char,
      classifyQuery q =
        if broadIndicators.any (fun i => listContains (toLowerList q) i) then
          [Level.episode, Level.topic]
        else if specificIndicators.any (fun i => listContains (toLowerList q) i) then
          [Level.paragraph, Level.sentence]
        else if exploratoryIndicators.any (fun i => listContains (toLowerList q) i) then
          [Level.episode, Level.topic, Level.paragraph]
        else [Level.topic, Level.paragraph]) ∧
    classifyQuery (str "which episodes discuss AI safety") = [Level.episode, Level.topic] ∧
    classifyQuery (str "what does the host mean by alignment") = [Level.paragraph, Level.sentence] ∧
    classifyQuery (str "tell me about the early career story") =
      [Level.episode, Level.topic, Level.paragraph] ∧
    classifyQuery (str "random neutral question") = [Level.topic, Level.paragraph] := by
  exact ⟨fun _ => rfl, by decide, by decide, by decide, by decide⟩

/-- C8.  For a hit whose parent id (when present) is a genuine database id
(nonzero), `assembleContext` returns the parent chunk found in the pool,
then at most 3 children (pool elements whose `parent_chunk_id` is the
hit's id), then at most 2 siblings (pool elements sharing the hit's parent,
excluding the hit itself), each group in pool order with no re-ranking. -/
theorem assembleContext_parent_children_siblings
    (result : SearchResult) (allResults : List SearchResult)
    (hpos : ∀ p, result.parent_chunk_id = some p → p ≠ 0) :
    assembleContext result allResults =
      (match result.parent_chunk_id with
        | some p => (allResults.find? (fun r => r.id = p)).toList
        | none => []) ++
      (allResults.filter (fun r => r.parent_chunk_id = some result.id)).take 3 ++
      (match result.parent_chunk_id with
        | some p =>
          (allResults.filter (fun r =>
            decide (r.parent_chunk_id = some p) && decide (r.id ≠ result.id))).take 2
        | none => []) := by
  cases hp : result.parent_chunk_id with
  | none => simp [assembleContext, hp]
  | some p =>
    have hne : p ≠ 0 := hpos p hp
    simp only [assembleContext, hp, if_neg hne]
    cases allResults.find? (fun r => r.id = p) <;> simp

/-- Witness for C8: on the example pool, the context of the hit is its
parent (id 5), the first three of its five children (ids 11, 12, 13 — in
creation order, although the child with id 12 has the highest similarity)
and its first two siblings (ids 20, 21). -/
theorem assembleContext_parent_children_siblings_witness :
    (assembleContext exampleHit examplePool).map SearchResult.id =
      [5, 11, 12, 13, 20, 21] := by
  have h := assembleContext_parent_children_siblings exampleHit examplePool
    (by intro p hp; simp [exampleHit] at hp; omega)
  rw [h]
  decide

/-- Counterexample to C4: a line starting with `1:2:3` does NOT yield the
anchor `01:02:03` — the timestamp regex requires two-digit minutes and
seconds, so the line is not recognised as timestamped at all: it produces
no anchor and is kept verbatim as clean text. -/
theorem unpadded_timestamp_line_yields_no_anchor :
    (extractTimestampsAndCleanText (str "1:2:3 hello world out there")).timestampedLines
        = [] ∧
    (extractTimestampsAndCleanText (str "1:2:3 hello world out there")).cleanText
        = str "1:2:3 hello world out there" ∧
    matchTimestamp (str "1:2:3 hello world out there") = none := by
  refine ⟨by decide, by decide, by decide⟩

/-- C4 as amended: a leading timestamp is recognised only when minutes and
seconds are exactly two digits (the hour may be one digit); on match the
anchor timestamp is normalised to `HH:MM:SS` — hour zero-padded,
milliseconds dropped, brackets/parentheses removed, range ends dropped.
`1:02:03` yields `01:02:03` and `[00:05:10]` yields `00:05:10`, while a
line starting `1:2:3` records no anchor. -/
theorem timestamp_anchor_normalization :
    (extractTimestampsAndCleanText (str "1:02:03 hello world out there")).timestampedLines
        = [⟨str "01:02:03", str "hello world out there", 0⟩] ∧
    (extractTimestampsAndCleanText (str "[00:05:10] hello world out here")).timestampedLines
        = [⟨str "00:05:10", str "hello world out here", 0⟩] ∧
    (extractTimestampsAndCleanText (str "(7:08:09) hello world out here")).timestampedLines
        = [⟨str "07:08:09", str "hello world out here", 0⟩] ∧
    normalizeTimestamp (str "1:02:03") = str "01:02:03" ∧
    normalizeTimestamp (str "00:01:02,500") = str "00:01:02" ∧
    normalizeTimestamp (str "0:01:02,000 --> 00:01:05,000") = str "00:01:02" ∧
    (extractTimestampsAndCleanText (str "1:2:3 hello world out there")).timestampedLines
        = [] := by
  refine ⟨by decide, by decide, by decide, by decide, by decide, by decide, by decide⟩

/-- Counterexample to C5: a line consisting of a bare SRT timestamp range
matches the timestamp pattern, yet NO anchor is recorded — the source
records the anchor inside `if (textAfterTimestamp)`, so a matched line
with no remaining text is dropped entirely. -/
theorem pure_timestamp_line_records_no_anchor :
    (matchTimestamp (str "00:01:02,000 --> 00:01:05,000")).isSome = true ∧
    processLines [str "00:01:02,000 --> 00:01:05,000"] 0 = ⟨[], []⟩ ∧
    (extractTimestampsAndCleanText (str "00:01:02,000 --> 00:01:05,000")).timestampedLines
        = [] := by
  refine ⟨by decide, by decide, by decide⟩

/-- C5 as amended: on a matched line an anchor is recorded at the current
output char offset and the remaining text appended ONLY when nonempty text
remains after the timestamp; a matched line with no remaining text
contributes neither an anchor nor clean text. -/
theorem anchor_recorded_only_with_text
    (line : List Char) (rest : List (List Char)) (charIndex mlen : Nat)
    (cap : List Char)
    (hmatch : matchTimestamp (jsTrim line) = some (mlen, cap))
    (htext : jsTrim ((jsTrim line).drop mlen) ≠ []) :
    processLines (line :: rest) charIndex =
      ⟨⟨normalizeTimestamp cap, jsTrim ((jsTrim line).drop mlen), charIndex⟩ ::
          (processLines rest
            (charIndex + (jsTrim ((jsTrim line).drop mlen)).length + 1)).timestampedLines,
        jsTrim ((jsTrim line).drop mlen) ::
          (processLines rest
            (charIndex + (jsTrim ((jsTrim line).drop mlen)).length + 1)).cleanLines⟩ := by
  have hne : jsTrim line ≠ [] := by
    intro h
    rw [h] at hmatch
    have hnone : matchTimestamp ([] : List Char) = none := by decide
    rw [hnone] at hmatch
    exact Option.noConfusion hmatch
  simp only [processLines, if_neg hne, hmatch, if_neg htext]

/-- Witness for the amended C5 at a concrete matched line with trailing
text. -/
theorem anchor_recorded_only_with_text_witness :
    processLines [str "1:02:03 hi there folks"] 0 =
      ⟨[⟨str "01:02:03", str "hi there folks", 0⟩], [str "hi there folks"]⟩ := by
  have h := anchor_recorded_only_with_text (str "1:02:03 hi there folks") [] 0 7
    (str "1:02:03") (by decide) (by decide)
  rw [h]
  decide

/-- The texts emitted by the sentence-chunk loop are exactly the candidates
longer than 30 characters, in order, with a period appended. -/
theorem mkSentenceChunks_texts (plainText : List Char) (allChunks : List ChunkData)
    (tsLines : List TimestampedLine) :
    ∀ (cands : List (Nat × List Char)) (counter : Nat),
      (mkSentenceChunks plainText allChunks tsLines cands counter).map
          ChunkData.text_content =
        (cands.filter (fun p => decide (p.2.length > 30))).map (fun p => p.2 ++ ['.'])
  | [], _ => rfl
  | (i, s) :: rest, counter => by
    by_cases h : s.length > 30
    · simp [mkSentenceChunks, h,
        mkSentenceChunks_texts plainText allChunks tsLines rest (counter + 1)]
    · simp [mkSentenceChunks, h,
        mkSentenceChunks_texts plainText allChunks tsLines rest counter]

/-- Counterexample to C9: the stage-1 bounds are strict, so a candidate of
length exactly 20 and one of length exactly 500 are both discarded, and a
surviving candidate of length exactly 30 is not emitted as a sentence
chunk. -/
theorem boundary_sentence_candidates_discarded :
    sentenceStage1 (List.replicate 20 'c' ++ ['.']) = [] ∧
    sentenceStage1 (List.replicate 500 'd' ++ ['.']) = [] ∧
    sentenceStage1 textC9 = [List.replicate 30 'e'] ∧
    isOkE resultC9 = true ∧
    chunksC9.countP (fun c => decide (c.chunk_level = Level.sentence)) = 0 := by
  refine ⟨by decide, by decide, by decide, by decide, by decide⟩

/-- C9 as amended: a punctuation-delimited trimmed candidate survives the
first stage exactly when its length is strictly between 20 and 500, and a
surviving candidate is emitted exactly when its length is strictly greater
than 30; lengths 21 and 499 survive the first stage and a length-31
sentence is emitted. -/
theorem sentence_chunk_length_bounds :
    (∀ (text s : List Char),
      s ∈ sentenceStage1 text ↔
        (s ∈ (splitRuns isSentencePunct text).map jsTrim ∧
          s.length > 20 ∧ s.length < 500)) ∧
    (∀ (plainText : List Char) (allChunks : List ChunkData)
        (tsLines : List TimestampedLine) (cands : List (Nat × List Char))
        (counter : Nat),
      (mkSentenceChunks plainText allChunks tsLines cands counter).map
          ChunkData.text_content =
        (cands.filter (fun p => decide (p.2.length > 30))).map (fun p => p.2 ++ ['.'])) ∧
    sentenceStage1 (List.replicate 21 'c' ++ ['.']) = [List.replicate 21 'c'] ∧
    sentenceStage1 (List.replicate 499 'd' ++ ['.']) = [List.replicate 499 'd'] ∧
    chunksC9b.countP (fun c => decide (c.chunk_level = Level.sentence)) = 1 := by
  refine ⟨?_, fun pt ac ts cands counter => mkSentenceChunks_texts pt ac ts cands counter,
    by decide, by decide, by decide⟩
  intro text s
  simp [sentenceStage1, List.mem_filter, and_assoc]

/-- The trimmed chapter text of an enumerated chapter, as computed by the
topic-chunk loop. -/
def chapterTrimmedText (plainText : List Char) (p : Nat × Chapter) : List Char :=
  jsTrim (jsSubstring plainText (jsOrNat p.2.startCharIndex 0)
    (jsOrNat p.2.endCharIndex plainText.length))

/-- The texts of the created topic chunks are exactly the trimmed chapter
texts longer than 200 characters, in chapter order. -/
theorem mkTopicChunks_texts (plainText : List Char) :
    ∀ (chs : List (Nat × Chapter)) (counter : Nat),
      (mkTopicChunks plainText chs counter).map ChunkData.text_content =
        (chs.filter (fun p => decide ((chapterTrimmedText plainText p).length > 200))).map
          (chapterTrimmedText plainText)
  | [], _ => rfl
  | (i, ch) :: rest, counter => by
    by_cases h : (jsTrim (jsSubstring plainText (jsOrNat ch.startCharIndex 0)
        (jsOrNat ch.endCharIndex plainText.length))).length > 200
    · simp only [mkTopicChunks]
      rw [if_pos h]
      simp [chapterTrimmedText, h, mkTopicChunks_texts plainText rest (counter + 1)]
    · simp only [mkTopicChunks]
      rw [if_neg h]
      simp [chapterTrimmedText, h, mkTopicChunks_texts plainText rest counter]

/-- Every created topic chunk is topic-level and has `topic_boundary` set
to true. -/
theorem mkTopicChunks_all_boundary (plainText : List Char) :
    ∀ (chs : List (Nat × Chapter)) (counter : Nat),
      (mkTopicChunks plainText chs counter).all (fun c =>
        decide (c.topic_boundary = some true) &&
        decide (c.chunk_level = Level.topic)) = true
  | [], _ => rfl
  | (i, ch) :: rest, counter => by
    by_cases h : (jsTrim (jsSubstring plainText (jsOrNat ch.startCharIndex 0)
        (jsOrNat ch.endCharIndex plainText.length))).length > 200
    · simp only [mkTopicChunks]
      rw [if_pos h]
      simp [mkTopicChunks_all_boundary plainText rest (counter + 1)]
    · simp only [mkTopicChunks]
      rw [if_neg h]
      exact mkTopicChunks_all_boundary plainText rest counter

/-- Counterexample to C10: a chapter whose char range spans exactly 200
characters is dropped — the guard is strict (`> 200`) and applies to the
trimmed chapter text, so the 200-character chapter of the example produces
no topic chunk. -/
theorem exactly_200_char_chapter_dropped :
    matchedC10.map (fun c => (c.startCharIndex, c.endCharIndex)) = [(some 0, some 200)] ∧
    (jsTrim (jsSubstring exampleText200 0 200)).length = 200 ∧
    isOkE resultC10 = true ∧
    chunksC10.countP (fun c => decide (c.chunk_level = Level.topic)) = 0 := by
  refine ⟨by decide, by decide, by decide, by decide⟩

/-- C10 as amended: a topic chunk is created for a chapter exactly when the
TRIMMED chapter substring is strictly longer than 200 characters (a chapter
spanning exactly 200 characters is dropped, not merged; a 201-character
chapter is kept), and every created topic chunk has `topic_boundary` true. -/
theorem topic_chunk_iff_trimmed_text_gt_200 :
    (∀ (plainText : List Char) (chs : List (Nat × Chapter)) (counter : Nat),
      (mkTopicChunks plainText chs counter).map ChunkData.text_content =
        (chs.filter (fun p =>
          decide ((chapterTrimmedText plainText p).length > 200))).map
          (chapterTrimmedText plainText)) ∧
    (∀ (plainText : List Char) (chs : List (Nat × Chapter)) (counter : Nat),
      (mkTopicChunks plainText chs counter).all (fun c =>
        decide (c.topic_boundary = some true) &&
        decide (c.chunk_level = Level.topic)) = true) ∧
    (mkTopicChunks exampleText201 [(0, exampleChapter201)] 1).map
        ChunkData.text_content = [exampleText201] := by
  exact ⟨fun pt chs counter => mkTopicChunks_texts pt chs counter,
    fun pt chs counter => mkTopicChunks_all_boundary pt chs counter, by decide⟩

/-- The resolved end char offset of one matched chapter: the char index of
the first timestamped line whose text matches the next chapter's first
sentence with score above 0.7, or the clean-text length otherwise. -/
theorem matchOneChapter_endCharIndex (chapters : List Chapter)
    (timestampedLines : List TimestampedLine) (cleanText : List Char)
    (index : Nat) (chapter : Chapter) :
    (matchOneChapter chapters timestampedLines cleanText index chapter).endCharIndex =
      some (match chapters.get? (index + 1) with
        | none => cleanText.length
        | some nextChapter =>
          match timestampedLines.find? (fun (line : TimestampedLine) =>
              decide (calculateMatchScore nextChapter.firstSentence line.text > 7 / 10)) with
          | some nextMatch => nextMatch.charIndex
          | none => cleanText.length) := by
  simp only [matchOneChapter]
  cases chapters.get? (index + 1) with
  | none => rfl
  | some nextChapter =>
    show some ((match timestampedLines.find? (fun (line : TimestampedLine) =>
        decide (calculateMatchScore nextChapter.firstSentence line.text > 7 / 10)) with
      | some nextMatch => (nextMatch.timestamp, nextMatch.charIndex)
      | none => (ts99, cleanText.length)).2) =
      some (match timestampedLines.find? (fun (line : TimestampedLine) =>
        decide (calculateMatchScore nextChapter.firstSentence line.text > 7 / 10)) with
      | some nextMatch => nextMatch.charIndex
      | none => cleanText.length)
    cases timestampedLines.find? (fun (line : TimestampedLine) =>
        decide (calculateMatchScore nextChapter.firstSentence line.text > 7 / 10)) with
    | none => rfl
    | some nextMatch => rfl

/-- Counterexample to C2: with no timestamped lines, the first chapter's
resolved end char offset is the clean-text length (44) while the second
chapter's resolved start offset is 27, so the first chapter's char range
[0, 44) strictly overlaps the second chapter's [27, 44). -/
theorem chapter_ranges_can_overlap :
    matchedC2.map (fun c => (c.startCharIndex, c.endCharIndex)) =
      [(some 0, some 44), (some 27, some 44)] ∧
    cleanC2.length = 44 ∧
    ¬((matchedC2.get? 0).bind (fun c => c.endCharIndex) =
        (matchedC2.get? 1).bind (fun c => c.startCharIndex)) := by
  refine ⟨by decide, by decide, by decide⟩

/-- C2 as amended: a chapter's resolved end char offset is the `charIndex`
of the FIRST timestamped line whose text matches the next chapter's first
sentence with score above 0.7, or the clean-text length when there is no
next chapter or no such line; it need not equal the next chapter's
independently resolved start offset, so chapter char ranges can overlap. -/
theorem chapter_end_char_rule :
    ∀ (cs : List Chapter) (ls : List TimestampedLine) (t : List Char) (i : Nat),
      ((matchChaptersToTimestamps cs ls t).get? i).map (fun c => c.endCharIndex) =
        (cs.get? i).map (fun _ =>
          some (match cs.get? (i + 1) with
            | none => t.length
            | some nextChapter =>
              match ls.find? (fun (line : TimestampedLine) =>
                  decide (calculateMatchScore nextChapter.firstSentence line.text > 7 / 10)) with
              | some nextMatch => nextMatch.charIndex
              | none => t.length)) := by
  intro cs ls t i
  rw [matchChaptersToTimestamps, mapWithIndex_get?]
  cases h : cs.get? i with
  | none => rfl
  | some c =>
    simp only [Option.map_some', Nat.zero_add]
    rw [matchOneChapter_endCharIndex]

/-- Counterexample to C3: when the episode-summary fetch returns a non-ok
response, `generateEpisodeSummary` does NOT raise — the thrown
`DeepInfra summary API error` is caught by the surrounding `catch`, which
returns the truncation fallback — and `createMultiLevelChunks` still
produces a chunk tree (3 chunks on the example transcript). -/
theorem summary_failure_not_fatal :
    generateEpisodeSummary textC3 (some (str "key")) (FetchOutcome.notOk (str "Bad Gateway"))
        = Except.ok (textC3 ++ str "...") ∧
    isOkE resultC3 = true ∧
    chunksC3.length = 3 ∧
    (chunksC3.find? (fun c => decide (c.chunk_level = Level.episode))).map
        (fun c => c.summary) = some (some (textC3 ++ str "...")) := by
  refine ⟨rfl, by decide, by decide, by decide⟩

/-- C3 as amended: an episode-summary oracle failure (rejected fetch or
non-ok response) is NOT fatal — `generateEpisodeSummary` degrades to the
fallback `fullText.substring(0, 500) + "..."` and the pipeline still
returns a chunk tree; only a missing `DEEPINFRA_API_KEY` makes
`generateEpisodeSummary` throw, which aborts `createMultiLevelChunks`. -/
theorem summary_fallback_and_fatal_only_on_missing_key :
    (∀ (fullText : List Char) (outcome : FetchOutcome),
      generateEpisodeSummary fullText none outcome =
        Except.error (str "DEEPINFRA_API_KEY environment variable is not set")) ∧
    (∀ (fullText k : List Char),
      generateEpisodeSummary fullText (some k) FetchOutcome.threw =
        Except.ok (truncFallback fullText)) ∧
    (∀ (fullText k st : List Char),
      generateEpisodeSummary fullText (some k) (FetchOutcome.notOk st) =
        Except.ok (truncFallback fullText)) ∧
    (∀ (plainText k guest : List Char) (origMd : Option (List Char))
        (outcome : FetchOutcome) (llmCh : Option (List Chapter))
        (docs : List (List Char)),
      isOkE (createMultiLevelChunks plainText origMd (some k) outcome guest llmCh docs)
        = true) ∧
    (∀ (plainText guest : List Char) (origMd : Option (List Char))
        (outcome : FetchOutcome) (llmCh : Option (List Chapter))
        (docs : List (List Char)),
      createMultiLevelChunks plainText origMd none outcome guest llmCh docs =
        Except.error (str "DEEPINFRA_API_KEY environment variable is not set")) := by
  refine ⟨fun _ _ => rfl, fun _ _ => rfl, fun _ _ _ => rfl, ?_, fun _ _ _ _ _ _ => rfl⟩
  intro plainText k guest origMd outcome llmCh docs
  cases outcome <;> rfl

/-- Theorem for C1 (code bug): on a one-chapter transcript the pipeline
produces exactly one episode chunk (`chunk_index` 0), but the topic chunk
at `chunk_index` 1 carries `parent_chunk_id = 1` — its own index, not the
episode chunk's — so following `parent_ref` from it loops at chunk 1
forever and never reaches the episode chunk. -/
theorem topic_parent_ref_self_loops :
    isOkE resultC1 = true ∧
    chunksC1.countP (fun c => decide (c.chunk_level = Level.episode)) = 1 ∧
    (chunksC1.find? (fun c => decide (c.chunk_index = 0))).map
        (fun c => c.chunk_level) = some Level.episode ∧
    (chunksC1.find? (fun c => decide (c.chunk_index = 1))).map
        (fun c => (c.chunk_level, c.parent_chunk_id)) =
      some (Level.topic, some 1) ∧
    parentStep chunksC1 1 = some 1 ∧
    (∀ n, chainIter chunksC1 n 1 = some 1) ∧
    (∀ n, chainIter chunksC1 n 1 ≠ some 0) := by
  have hstep : parentStep chunksC1 1 = some 1 := by decide
  have hchain : ∀ n, chainIter chunksC1 n 1 = some 1 := by
    intro n
    induction n with
    | zero => rfl
    | succ k ih =>
      simp only [chainIter, hstep]
      exact ih
  refine ⟨by decide, by decide, by decide, by decide, hstep, hchain, ?_⟩
  intro n
  rw [hchain n]
  decide

end Podcast
